import Mathlib

/-!
Shallow embedding of the dsa-helper progress tracker core.

The definitions below translate `src/data_manager.py` (the `DataManager`
class: catalog access, progress mutators, statistics) and `src/utils.py`
(`calculate_streak`, `get_recommended_problems`) into Lean.  Python dicts
with string keys become association lists with in-place update semantics,
Python lists become Lean lists, timestamps become abstract natural numbers
with dates derived through an abstract day function, and the float
completion percentage becomes a rational number.  File-system effects in
`load_config` are modelled by an explicit source datatype together with an
`Except` result reflecting which exceptions the Python code catches.
-/

namespace DsaHelper

/-- Problem difficulty, the three values used throughout the source. -/
inductive Difficulty where
  | Easy
  | Medium
  | Hard
deriving DecidableEq

/-- Editorial importance tag on a problem. -/
inductive Importance where
  | Low
  | Medium
  | High
deriving DecidableEq

/-- A catalog problem; fields are the ones read by the embedded operations. -/
structure Problem where
  id : Nat
  title : String
  link : String
  difficulty : Difficulty
  topic : String
  patterns : List String
  importance : Importance
deriving DecidableEq

/-- A learning path from the configuration file. -/
structure LearningPath where
  name : String
  description : String
  problem_ids : List Nat
deriving DecidableEq

/-- The configuration document: problems, learning paths, topics, patterns. -/
structure Config where
  problems : List Problem
  learning_paths : List (String × LearningPath)
  topics : List String
  patterns : List String
deriving DecidableEq

/-- The default configuration returned when the config file is missing
    (`load_config`, src/data_manager.py lines 18-20). -/
def default_config : Config :=
  { problems := [], learning_paths := [], topics := [], patterns := [] }

/-- A note entry: content plus last-modified timestamp (`save_note`). -/
structure NoteEntry where
  content : String
  last_updated : Nat
deriving DecidableEq

/-- One entry of the append-only solve history (`mark_solved`). -/
structure SolveEntry where
  problem_id : Nat
  timestamp : Nat
  time_spent : Int
deriving DecidableEq

/-- The `difficulty_stats` dictionary, which always has exactly the keys
    Easy, Medium, Hard (`_create_default_progress`). -/
structure DiffStats where
  easy : Int
  medium : Int
  hard : Int
deriving DecidableEq

/-- Dictionary read of `difficulty_stats[d]`. -/
def DiffStats.get (s : DiffStats) : Difficulty → Int
  | .Easy => s.easy
  | .Medium => s.medium
  | .Hard => s.hard

/-- Dictionary update `difficulty_stats[d] += v`. -/
def DiffStats.add (s : DiffStats) (d : Difficulty) (v : Int) : DiffStats :=
  match d with
  | .Easy => { s with easy := s.easy + v }
  | .Medium => { s with medium := s.medium + v }
  | .Hard => { s with hard := s.hard + v }

/-- Python dict read with default: `d.get(k, v0)`. -/
def dictGetD {β : Type} (l : List (String × β)) (k : String) (v0 : β) : β :=
  match l with
  | [] => v0
  | kv :: t => if kv.1 = k then kv.2 else dictGetD t k v0

/-- Python dict assignment `d[k] = v`: replaces the value in place if the
    key is present (keys are unique in a Python dict), appends otherwise. -/
def dictSet {β : Type} (l : List (String × β)) (k : String) (v : β) :
    List (String × β) :=
  match l with
  | [] => [(k, v)]
  | kv :: t => if kv.1 = k then (k, v) :: t else kv :: dictSet t k v

/-- The mutable user progress record (`_create_default_progress`). -/
structure Progress where
  solved_problems : List Nat
  bookmarked_problems : List Nat
  notes : List (String × NoteEntry)
  difficulty_stats : DiffStats
  topic_stats : List (String × Int)
  last_updated : Option Nat
  daily_streak : Int
  total_time_spent : Int
  solve_history : List SolveEntry
deriving DecidableEq

/-- The default-empty progress record (src/data_manager.py lines 32-48). -/
def default_progress : Progress :=
  { solved_problems := []
    bookmarked_problems := []
    notes := []
    difficulty_stats := { easy := 0, medium := 0, hard := 0 }
    topic_stats := []
    last_updated := none
    daily_streak := 0
    total_time_spent := 0
    solve_history := [] }

/-- Linear scan returning the first problem with the given id, `None`
    otherwise (`get_problem_by_id`, lines 60-65). -/
def get_problem_by_id (cfg : Config) (problem_id : Nat) : Option Problem :=
  cfg.problems.find? (fun p => p.id == problem_id)

/-- Persisting the record stamps `last_updated` with the current time
    (`save_progress`, lines 50-54); the file write itself is out of scope. -/
def save_progress (now : Nat) (pr : Progress) : Progress :=
  { pr with last_updated := some now }

/-- `mark_solved` (lines 95-117): no-op if already solved; otherwise append
    the id to `solved_problems`; if the problem is found in the catalog,
    bump its difficulty and topic stats and append a history entry (the
    history append sits inside the `if problem:` block in the source);
    always add `time_spent` to the running total; persist. -/
def mark_solved (cfg : Config) (problem_id : Nat) (time_spent : Int)
    (now : Nat) (pr : Progress) : Progress :=
  if problem_id ∈ pr.solved_problems then pr
  else
    let pr := { pr with solved_problems := pr.solved_problems ++ [problem_id] }
    let pr :=
      match get_problem_by_id cfg problem_id with
      | some problem =>
          { pr with
            difficulty_stats := pr.difficulty_stats.add problem.difficulty 1
            topic_stats :=
              dictSet pr.topic_stats problem.topic
                (dictGetD pr.topic_stats problem.topic 0 + 1)
            solve_history :=
              pr.solve_history ++
                [({ problem_id := problem_id, timestamp := now,
                    time_spent := time_spent } : SolveEntry)] }
      | none => pr
    let pr := { pr with total_time_spent := pr.total_time_spent + time_spent }
    save_progress now pr

/-- `mark_unsolved` (lines 119-131): no-op if not solved; otherwise remove
    the first occurrence of the id; if the problem is found, decrement its
    difficulty stat (no floor) and its topic stat (floored at 0); persist. -/
def mark_unsolved (cfg : Config) (problem_id : Nat) (now : Nat)
    (pr : Progress) : Progress :=
  if problem_id ∈ pr.solved_problems then
    let pr := { pr with solved_problems := pr.solved_problems.erase problem_id }
    let pr :=
      match get_problem_by_id cfg problem_id with
      | some problem =>
          { pr with
            difficulty_stats := pr.difficulty_stats.add problem.difficulty (-1)
            topic_stats :=
              dictSet pr.topic_stats problem.topic
                (max 0 (dictGetD pr.topic_stats problem.topic 0 - 1)) }
      | none => pr
    save_progress now pr
  else pr

/-- `toggle_bookmark` (lines 133-139): flip list membership, persist. -/
def toggle_bookmark (problem_id : Nat) (now : Nat) (pr : Progress) : Progress :=
  let b :=
    if problem_id ∈ pr.bookmarked_problems then
      pr.bookmarked_problems.erase problem_id
    else
      pr.bookmarked_problems ++ [problem_id]
  save_progress now { pr with bookmarked_problems := b }

/-- `save_note` (lines 141-147): upsert under the stringified id, persist. -/
def save_note (problem_id : Nat) (note : String) (now : Nat)
    (pr : Progress) : Progress :=
  save_progress now
    { pr with
      notes :=
        dictSet pr.notes (toString problem_id)
          { content := note, last_updated := now } }

/-- The record returned by `get_progress_stats` (lines 154-168); the float
    completion percentage is embedded as a rational. -/
structure ProgressStats where
  total_problems : Nat
  solved_count : Nat
  unsolved_count : Int
  completion_percentage : ℚ
  difficulty_stats : DiffStats
  topic_stats : List (String × Int)
  daily_streak : Int
  total_time_spent : Int
deriving DecidableEq

/-- `get_progress_stats` (lines 154-168): the percentage is
    `solved_count / total_problems * 100` guarded by `total_problems > 0`. -/
def get_progress_stats (cfg : Config) (pr : Progress) : ProgressStats :=
  let total_problems := cfg.problems.length
  let solved_count := pr.solved_problems.length
  { total_problems := total_problems
    solved_count := solved_count
    unsolved_count := (total_problems : Int) - (solved_count : Int)
    completion_percentage :=
      if total_problems > 0 then
        (solved_count : ℚ) / (total_problems : ℚ) * 100
      else 0
    difficulty_stats := pr.difficulty_stats
    topic_stats := pr.topic_stats
    daily_streak := pr.daily_streak
    total_time_spent := pr.total_time_spent }

/-- The sort key of `get_recommended_problems` (src/utils.py line 101):
    the dictionary difficulty_order. -/
def difficulty_order : Difficulty → Nat
  | .Easy => 1
  | .Medium => 2
  | .Hard => 3

/-- The comparison used when sorting recommendation candidates: ascending
    difficulty_order of the difficulty. -/
def rec_order (a b : Problem) : Prop :=
  difficulty_order a.difficulty ≤ difficulty_order b.difficulty

instance : DecidableRel rec_order :=
  fun a b => Nat.decLe (difficulty_order a.difficulty) (difficulty_order b.difficulty)

instance : IsTotal Problem rec_order :=
  ⟨fun a b => Nat.le_total (difficulty_order a.difficulty) (difficulty_order b.difficulty)⟩

instance : IsTrans Problem rec_order :=
  ⟨fun _ _ _ hab hbc => Nat.le_trans hab hbc⟩

/-- The candidate list of `get_recommended_problems` before sorting:
    unsolved problems of High importance in catalog order. -/
def rec_candidates (cfg : Config) (pr : Progress) : List Problem :=
  ((cfg.problems.filter
      (fun p => decide (p.id ∉ pr.solved_problems))).filter
    (fun p => p.importance == Importance.High))

/-- `get_recommended_problems` (src/utils.py lines 91-104): keep the
    unsolved problems, keep the High-importance ones, sort stably by
    ascending difficulty (Python list.sort is stable; a stable insertion
    sort computes the same list), take the first `limit`. -/
def get_recommended_problems (cfg : Config) (pr : Progress)
    (limit : Nat) : List Problem :=
  let all_problems := cfg.problems
  let unsolved := all_problems.filter (fun p => decide (p.id ∉ pr.solved_problems))
  let high_importance := unsolved.filter (fun p => p.importance == Importance.High)
  let sorted := high_importance.insertionSort rec_order
  sorted.take limit

/-- The loop of `calculate_streak` (src/utils.py lines 50-58), with dates
    as integer day numbers and `date_of` deriving the day of an entry from its
    timestamp; `current_date - streak` is `current_date -
    timedelta(days=streak)`. -/
def streak_loop (date_of : Nat → Int) :
    List SolveEntry → Int → Int → Int
  | [], streak, _ => streak
  | entry :: rest, streak, current_date =>
    let entry_date := date_of entry.timestamp
    if entry_date = current_date ∨ entry_date = current_date - streak then
      if entry_date < current_date then
        streak_loop date_of rest (streak + 1) entry_date
      else
        streak_loop date_of rest streak current_date
    else streak

/-- `calculate_streak` (src/utils.py lines 39-60): return 0 on an empty
    history, otherwise sort the history by timestamp descending and run the
    streak loop starting from streak 0 at the date of today. -/
def calculate_streak (date_of : Nat → Int) (today : Int)
    (solve_history : List SolveEntry) : Int :=
  if solve_history.isEmpty then 0
  else
    let sorted_history :=
      solve_history.insertionSort (fun a b => b.timestamp ≤ a.timestamp)
    streak_loop date_of sorted_history 0 today

/-- A single mark operation, for reasoning about operation sequences. -/
inductive Op where
  | solve (problem_id : Nat) (time_spent : Int) (now : Nat)
  | unsolve (problem_id : Nat) (now : Nat)

/-- The problem id an operation acts on. -/
def Op.pid : Op → Nat
  | .solve problem_id _ _ => problem_id
  | .unsolve problem_id _ => problem_id

/-- Apply one operation to a progress record. -/
def apply_op (cfg : Config) (pr : Progress) : Op → Progress
  | .solve problem_id time_spent now => mark_solved cfg problem_id time_spent now pr
  | .unsolve problem_id now => mark_unsolved cfg problem_id now pr

/-- Apply a sequence of operations left to right. -/
def apply_ops (cfg : Config) (pr : Progress) (ops : List Op) : Progress :=
  ops.foldl (apply_op cfg) pr

/-- Test whether the catalog difficulty of a problem id is `d`. -/
def difficulty_matches (cfg : Config) (d : Difficulty) (problem_id : Nat) : Bool :=
  match get_problem_by_id cfg problem_id with
  | some p => p.difficulty == d
  | none => false

/-- Test whether the catalog topic of a problem id is `t`. -/
def topic_matches (cfg : Config) (t : String) (problem_id : Nat) : Bool :=
  match get_problem_by_id cfg problem_id with
  | some p => p.topic == t
  | none => false

/-- The cached-statistics invariant: every difficulty stat equals the
    number of solved ids of that catalog difficulty, and every topic stat
    equals the number of solved ids of that catalog topic. -/
def stats_consistent (cfg : Config) (pr : Progress) : Prop :=
  (∀ d, pr.difficulty_stats.get d
      = (pr.solved_problems.countP (difficulty_matches cfg d) : Int)) ∧
  (∀ t, dictGetD pr.topic_stats t 0
      = (pr.solved_problems.countP (topic_matches cfg t) : Int))

/-- How the configuration source can present itself to `load_config`. -/
inductive ConfigSource where
  | missing
  | malformed
  | valid (cfg : Config)

/-- The exceptions relevant to `load_config`. -/
inductive PyError where
  | fileNotFound
  | jsonDecodeError
deriving DecidableEq

/-- `load_config` (src/data_manager.py lines 13-20): the `try` block opens
    and parses the file; only `FileNotFoundError` is caught and replaced by
    the empty default configuration, so a malformed file makes `json.load`
    raise `JSONDecodeError`, which propagates to the caller. -/
def load_config : ConfigSource → Except PyError Config
  | .missing => .ok default_config
  | .malformed => .error .jsonDecodeError
  | .valid cfg => .ok cfg

/-- Concrete fixture: an easy high-importance array problem. -/
def prob1 : Problem :=
  { id := 1, title := "Two Sum", link := "", difficulty := .Easy,
    topic := "Array", patterns := [], importance := .High }

/-- Concrete fixture: a hard high-importance graph problem. -/
def prob2 : Problem :=
  { id := 2, title := "Word Ladder", link := "", difficulty := .Hard,
    topic := "Graph", patterns := [], importance := .High }

/-- Concrete fixture: a medium low-importance dynamic-programming problem. -/
def prob3 : Problem :=
  { id := 3, title := "Coin Change", link := "", difficulty := .Medium,
    topic := "DP", patterns := [], importance := .Low }

/-- Concrete fixture: a three-problem catalog. -/
def cfgW : Config :=
  { problems := [prob1, prob2, prob3], learning_paths := [],
    topics := ["Array", "Graph", "DP"], patterns := [] }

/-- Concrete fixture: a catalog containing only the low-importance problem. -/
def cfgLow : Config :=
  { problems := [prob3], learning_paths := [], topics := ["DP"], patterns := [] }

/-- Concrete fixture: a progress record in which problem 1 is solved. -/
def prS1 : Progress :=
  { default_progress with
    solved_problems := [1]
    difficulty_stats := { easy := 1, medium := 0, hard := 0 }
    topic_stats := [("Array", 1)] }

/-- Concrete fixture: solve problems 1 and 2, then unsolve problem 1. -/
def opsW : List Op := [Op.solve 1 10 0, Op.solve 2 20 1, Op.unsolve 1 2]

/-- Marking an already-solved problem is a complete no-op. -/
lemma mark_solved_of_mem (cfg : Config) {problem_id : Nat} (t : Int) (now : Nat)
    {pr : Progress} (h : problem_id ∈ pr.solved_problems) :
    mark_solved cfg problem_id t now pr = pr := by
  simp [mark_solved, h]

/-- After `mark_solved`, the id is in the solved list. -/
lemma mem_solved_mark_solved (cfg : Config) (problem_id : Nat) (t : Int)
    (now : Nat) (pr : Progress) :
    problem_id ∈ (mark_solved cfg problem_id t now pr).solved_problems := by
  by_cases h : problem_id ∈ pr.solved_problems
  · simp [mark_solved, h]
  · cases hg : get_problem_by_id cfg problem_id <;>
      simp [mark_solved, h, hg, save_progress]

/-- Reading a difficulty-stat entry after a dictionary increment. -/
lemma DiffStats.get_add (s : DiffStats) (d d2 : Difficulty) (v : Int) :
    (s.add d v).get d2 = s.get d2 + if d2 = d then v else 0 := by
  cases d <;> cases d2 <;> simp [DiffStats.add, DiffStats.get]

/-- Reading a dictionary after an in-place update. -/
lemma dictGetD_dictSet {β : Type} (l : List (String × β)) (k k2 : String)
    (v v0 : β) :
    dictGetD (dictSet l k v) k2 v0 = if k2 = k then v else dictGetD l k2 v0 := by
  induction l with
  | nil =>
    by_cases h : k2 = k
    · simp [dictSet, dictGetD, h]
    · simp [dictSet, dictGetD, h, Ne.symm h]
  | cons kv t ih =>
    by_cases h1 : kv.1 = k
    · by_cases h2 : k2 = k
      · simp [dictSet, dictGetD, h1, h2]
      · simp [dictSet, dictGetD, h1, h2, Ne.symm h2]
    · by_cases h3 : kv.1 = k2
      · have hk : ¬ k2 = k := fun hk2 => h1 (h3.trans hk2)
        simp [dictSet, dictGetD, h1, h3, hk]
      · simp [dictSet, dictGetD, h1, h3, ih]

/-- C6: calling markSolved twice with the same id yields exactly the same
    progress record as calling it once; the second call is a no-op because
    the id is already in the solved list. -/
theorem mark_solved_idempotent (cfg : Config) (problem_id : Nat) (t : Int)
    (now now2 : Nat) (pr : Progress) :
    mark_solved cfg problem_id t now2 (mark_solved cfg problem_id t now pr)
      = mark_solved cfg problem_id t now pr :=
  mark_solved_of_mem cfg t now2
    (mem_solved_mark_solved cfg problem_id t now pr)

/-- C8: the completion percentage returned by get_progress_stats equals
    solved_count / total_problems * 100 when the catalog is nonempty and
    equals 0 when the catalog is empty, so no division by zero occurs. -/
theorem completion_percentage_spec (cfg : Config) (pr : Progress) :
    (0 < (get_progress_stats cfg pr).total_problems →
      (get_progress_stats cfg pr).completion_percentage
        = ((get_progress_stats cfg pr).solved_count : ℚ)
            / ((get_progress_stats cfg pr).total_problems : ℚ) * 100)
    ∧ ((get_progress_stats cfg pr).total_problems = 0 →
      (get_progress_stats cfg pr).completion_percentage = 0) := by
  constructor
  · intro h
    have h2 : 0 < cfg.problems.length := h
    simp only [get_progress_stats]
    rw [if_pos h2]
  · intro h
    have h2 : cfg.problems.length = 0 := h
    simp only [get_progress_stats]
    rw [if_neg (by omega)]

/-- Witness for C8 at a three-problem catalog and at the empty catalog. -/
theorem completion_percentage_witness :
    0 < (get_progress_stats cfgW prS1).total_problems
    ∧ (get_progress_stats cfgW prS1).completion_percentage
        = ((get_progress_stats cfgW prS1).solved_count : ℚ)
            / ((get_progress_stats cfgW prS1).total_problems : ℚ) * 100
    ∧ (get_progress_stats default_config prS1).total_problems = 0
    ∧ (get_progress_stats default_config prS1).completion_percentage = 0 :=
  ⟨by decide, (completion_percentage_spec cfgW prS1).1 (by decide),
   by decide, (completion_percentage_spec default_config prS1).2 (by decide)⟩

/-- C2 counterexample: marking an id that is absent from the catalog does
    NOT append a solve-history entry, because the history append sits
    inside the `if problem:` block of mark_solved. -/
theorem mark_solved_unknown_counterexample :
    get_problem_by_id default_config 1 = none
    ∧ 1 ∉ default_progress.solved_problems
    ∧ (mark_solved default_config 1 5 0 default_progress).solve_history = [] :=
  ⟨rfl, by decide, by decide⟩

/-- C2 amended: marking an unknown, not-yet-solved id adds it to the
    solved list, leaves the solve history unchanged (no entry appended),
    adds the time spent to the running total, and leaves both stat caches
    unchanged. -/
theorem mark_solved_unknown (cfg : Config) (problem_id : Nat) (t : Int)
    (now : Nat) (pr : Progress)
    (hnone : get_problem_by_id cfg problem_id = none)
    (hmem : problem_id ∉ pr.solved_problems) :
    (mark_solved cfg problem_id t now pr).solved_problems
        = pr.solved_problems ++ [problem_id]
    ∧ (mark_solved cfg problem_id t now pr).solve_history = pr.solve_history
    ∧ (mark_solved cfg problem_id t now pr).total_time_spent
        = pr.total_time_spent + t
    ∧ (mark_solved cfg problem_id t now pr).difficulty_stats
        = pr.difficulty_stats
    ∧ (mark_solved cfg problem_id t now pr).topic_stats = pr.topic_stats := by
  simp [mark_solved, hmem, hnone, save_progress]

/-- Witness for the amended C2: id 4 is not in the three-problem catalog. -/
theorem mark_solved_unknown_witness :
    get_problem_by_id cfgW 4 = none
    ∧ 4 ∉ prS1.solved_problems
    ∧ (mark_solved cfgW 4 7 0 prS1).solved_problems
        = prS1.solved_problems ++ [4]
    ∧ (mark_solved cfgW 4 7 0 prS1).solve_history = prS1.solve_history
    ∧ (mark_solved cfgW 4 7 0 prS1).total_time_spent
        = prS1.total_time_spent + 7
    ∧ (mark_solved cfgW 4 7 0 prS1).difficulty_stats = prS1.difficulty_stats
    ∧ (mark_solved cfgW 4 7 0 prS1).topic_stats = prS1.topic_stats :=
  ⟨rfl, by decide, mark_solved_unknown cfgW 4 7 0 prS1 rfl (by decide)⟩

/-- C9 counterexample: a malformed configuration source makes load_config
    propagate the JSON decode error instead of degrading to the empty
    catalog; only FileNotFoundError is caught in the source. -/
theorem load_config_malformed_counterexample :
    load_config ConfigSource.malformed = Except.error PyError.jsonDecodeError :=
  rfl

/-- C9 amended: a missing configuration source yields the empty default
    catalog (no problems, learning paths, topics or patterns) without
    raising, while a malformed source raises a JSON decode error. -/
theorem load_config_spec :
    load_config ConfigSource.missing = Except.ok default_config
    ∧ default_config.problems = []
    ∧ default_config.learning_paths = []
    ∧ default_config.topics = []
    ∧ default_config.patterns = []
    ∧ load_config ConfigSource.malformed
        = Except.error PyError.jsonDecodeError :=
  ⟨rfl, rfl, rfl, rfl, rfl, rfl⟩

/-- The streak loop started with streak 0 always returns 0: the pass
    condition degenerates to entry_date = current_date, which makes the
    strict-inequality increment branch unreachable. -/
lemma streak_loop_zero (date_of : Nat → Int) :
    ∀ (l : List SolveEntry) (c : Int), streak_loop date_of l 0 c = 0
  | [], _ => rfl
  | e :: rest, c => by
    simp only [streak_loop, sub_zero, or_self]
    by_cases h1 : date_of e.timestamp = c
    · rw [if_pos h1, if_neg (by rw [h1]; exact lt_irrefl c)]
      exact streak_loop_zero date_of rest c
    · rw [if_neg h1]

/-- C3: calculate_streak returns 0 for every solve history, every current
    date, and every way of deriving dates from timestamps; in particular a
    history with a solve yesterday yields streak 0, not 1 as specified. -/
theorem calculate_streak_always_zero (date_of : Nat → Int) (today : Int)
    (solve_history : List SolveEntry) :
    calculate_streak date_of today solve_history = 0 := by
  unfold calculate_streak
  by_cases he : solve_history.isEmpty <;> simp [he, streak_loop_zero]

/-- Erasing an element that occurs at most once removes it entirely. -/
lemma not_mem_erase_of_count_le_one {a : Nat} {l : List Nat}
    (hmem : a ∈ l) (hc : l.count a ≤ 1) : a ∉ l.erase a := by
  have h1 : l.count a = 1 := le_antisymm hc (List.count_pos_iff.mpr hmem)
  have h2 : (l.erase a).count a = 0 := by rw [List.count_erase_self, h1]
  exact List.count_eq_zero.mp h2

/-- C4: unmarking a solved problem that is present in the catalog removes
    the id from the solved set, decrements its difficulty stat with no
    floor, decrements its topic stat floored at zero, and leaves the solve
    history and the time total unchanged; unmarking an unsolved id is a
    no-op. -/
theorem mark_unsolved_spec (cfg : Config) (problem_id now : Nat)
    (pr : Progress) (p : Problem)
    (hfind : get_problem_by_id cfg problem_id = some p)
    (hmem : problem_id ∈ pr.solved_problems)
    (hcount : pr.solved_problems.count problem_id ≤ 1) :
    problem_id ∉ (mark_unsolved cfg problem_id now pr).solved_problems
    ∧ (mark_unsolved cfg problem_id now pr).difficulty_stats.get p.difficulty
        = pr.difficulty_stats.get p.difficulty - 1
    ∧ dictGetD (mark_unsolved cfg problem_id now pr).topic_stats p.topic 0
        = max 0 (dictGetD pr.topic_stats p.topic 0 - 1)
    ∧ (mark_unsolved cfg problem_id now pr).solve_history = pr.solve_history
    ∧ (mark_unsolved cfg problem_id now pr).total_time_spent
        = pr.total_time_spent
    ∧ (∀ q : Progress, problem_id ∉ q.solved_problems →
        mark_unsolved cfg problem_id now q = q) := by
  refine ⟨?_, ?_, ?_, ?_, ?_, ?_⟩
  · simpa [mark_unsolved, hmem, hfind, save_progress] using
      not_mem_erase_of_count_le_one hmem hcount
  · simp [mark_unsolved, hmem, hfind, save_progress, DiffStats.get_add]
    ring
  · simp [mark_unsolved, hmem, hfind, save_progress, dictGetD_dictSet]
  · simp [mark_unsolved, hmem, hfind, save_progress]
  · simp [mark_unsolved, hmem, hfind, save_progress]
  · intro q hq
    simp [mark_unsolved, hq]

/-- Witness for C4 at problem 1 of the three-problem catalog. -/
theorem mark_unsolved_witness :
    get_problem_by_id cfgW 1 = some prob1
    ∧ 1 ∈ prS1.solved_problems
    ∧ prS1.solved_problems.count 1 ≤ 1
    ∧ 1 ∉ (mark_unsolved cfgW 1 3 prS1).solved_problems
    ∧ (mark_unsolved cfgW 1 3 prS1).difficulty_stats.get prob1.difficulty
        = prS1.difficulty_stats.get prob1.difficulty - 1 :=
  ⟨rfl, by decide, by decide,
   (mark_unsolved_spec cfgW 1 3 prS1 prob1 rfl (by decide) (by decide)).1,
   (mark_unsolved_spec cfgW 1 3 prS1 prob1 rfl (by decide) (by decide)).2.1⟩

/-- C10: toggling a bookmark flips exactly the membership of that id in
    the bookmarked list and stamps last_updated; every other field of the
    progress record is unchanged. -/
theorem toggle_bookmark_spec (problem_id now : Nat) (pr : Progress)
    (hcount : pr.bookmarked_problems.count problem_id ≤ 1) :
    ((problem_id ∈ (toggle_bookmark problem_id now pr).bookmarked_problems)
        ↔ problem_id ∉ pr.bookmarked_problems)
    ∧ (∀ q, q ≠ problem_id →
        ((q ∈ (toggle_bookmark problem_id now pr).bookmarked_problems)
          ↔ q ∈ pr.bookmarked_problems))
    ∧ (toggle_bookmark problem_id now pr).solved_problems = pr.solved_problems
    ∧ (toggle_bookmark problem_id now pr).notes = pr.notes
    ∧ (toggle_bookmark problem_id now pr).difficulty_stats
        = pr.difficulty_stats
    ∧ (toggle_bookmark problem_id now pr).topic_stats = pr.topic_stats
    ∧ (toggle_bookmark problem_id now pr).total_time_spent
        = pr.total_time_spent
    ∧ (toggle_bookmark problem_id now pr).solve_history = pr.solve_history
    ∧ (toggle_bookmark problem_id now pr).daily_streak = pr.daily_streak
    ∧ (toggle_bookmark problem_id now pr).last_updated = some now := by
  refine ⟨?_, ?_, rfl, rfl, rfl, rfl, rfl, rfl, rfl, rfl⟩
  · by_cases h : problem_id ∈ pr.bookmarked_problems
    · have hne := not_mem_erase_of_count_le_one h hcount
      simp [toggle_bookmark, save_progress, h, hne]
    · simp [toggle_bookmark, save_progress, h]
  · intro q hq
    by_cases h : problem_id ∈ pr.bookmarked_problems
    · simp [toggle_bookmark, save_progress, h, List.mem_erase_of_ne hq]
    · simp [toggle_bookmark, save_progress, h, hq]

/-- Witness for C10: bookmarking id 2 on the empty record adds it. -/
theorem toggle_bookmark_witness :
    default_progress.bookmarked_problems.count 2 ≤ 1
    ∧ ((2 ∈ (toggle_bookmark 2 9 default_progress).bookmarked_problems)
        ↔ 2 ∉ default_progress.bookmarked_problems) :=
  ⟨by decide, (toggle_bookmark_spec 2 9 default_progress (by decide)).1⟩

/-- A failed comparison in the recommendation order separates difficulties. -/
lemma diff_ne_of_not_rec_order {a b : Problem} (h : ¬ rec_order a b) :
    b.difficulty ≠ a.difficulty := by
  intro he
  exact h (by unfold rec_order; rw [he])

/-- Inserting a problem into a list moves it only past strictly easier
    problems, so the sublist of any fixed difficulty gains the new problem
    at the front exactly when the difficulty matches. -/
lemma filter_diff_orderedInsert (a : Problem) (l : List Problem)
    (d : Difficulty) :
    (l.orderedInsert rec_order a).filter (fun p => p.difficulty == d)
      = if a.difficulty = d
        then a :: l.filter (fun p => p.difficulty == d)
        else l.filter (fun p => p.difficulty == d) := by
  induction l with
  | nil =>
    by_cases had : a.difficulty = d <;>
      simp [List.orderedInsert, List.filter_cons, had]
  | cons b t ih =>
    by_cases hr : rec_order a b
    · rw [List.orderedInsert_of_le rec_order t hr]
      by_cases had : a.difficulty = d <;> simp [List.filter_cons, had]
    · have hne : b.difficulty ≠ a.difficulty := diff_ne_of_not_rec_order hr
      have hOI : (b :: t).orderedInsert rec_order a
          = b :: t.orderedInsert rec_order a := by
        simp [List.orderedInsert, hr]
      rw [hOI]
      by_cases had : a.difficulty = d
      · have hbd : ¬ b.difficulty = d := fun hb => hne (hb.trans had.symm)
        simp [List.filter_cons, hbd, ih, had]
      · simp [List.filter_cons, ih, had]

/-- The insertion sort by difficulty is stable: restricted to any one
    difficulty, it returns the input sublist unchanged. -/
lemma filter_diff_insertionSort (l : List Problem) (d : Difficulty) :
    (l.insertionSort rec_order).filter (fun p => p.difficulty == d)
      = l.filter (fun p => p.difficulty == d) := by
  induction l with
  | nil => rfl
  | cons a t ih =>
    show ((t.insertionSort rec_order).orderedInsert rec_order a).filter
        (fun p => p.difficulty == d) = _
    rw [filter_diff_orderedInsert, ih]
    by_cases had : a.difficulty = d <;> simp [List.filter_cons, had]

/-- C5: the recommendation list contains only unsolved High-importance
    problems, has at most `limit` entries, is sorted by ascending
    difficulty, is stable (each difficulty class is a prefix-respecting
    sublist of the catalog-ordered candidates), and is empty when no
    unsolved High-importance problem exists. -/
theorem get_recommended_problems_spec (cfg : Config) (pr : Progress)
    (limit : Nat) :
    (∀ p ∈ get_recommended_problems cfg pr limit,
        p.id ∉ pr.solved_problems ∧ p.importance = Importance.High)
    ∧ (get_recommended_problems cfg pr limit).length ≤ limit
    ∧ List.Sorted rec_order (get_recommended_problems cfg pr limit)
    ∧ (∀ d, ((get_recommended_problems cfg pr limit).filter
          (fun p => p.difficulty == d)).Sublist
        ((rec_candidates cfg pr).filter (fun p => p.difficulty == d)))
    ∧ ((∀ p ∈ cfg.problems,
          p.id ∈ pr.solved_problems ∨ p.importance ≠ Importance.High) →
        get_recommended_problems cfg pr limit = []) := by
  have hrec : get_recommended_problems cfg pr limit
      = ((rec_candidates cfg pr).insertionSort rec_order).take limit := rfl
  refine ⟨?_, ?_, ?_, ?_, ?_⟩
  · intro p hp
    rw [hrec] at hp
    have hp2 : p ∈ (rec_candidates cfg pr).insertionSort rec_order :=
      (List.take_sublist _ _).subset hp
    have hp3 : p ∈ rec_candidates cfg pr :=
      (List.mem_insertionSort rec_order).mp hp2
    obtain ⟨hp4, hp5⟩ := List.mem_filter.mp hp3
    obtain ⟨hp6, hp7⟩ := List.mem_filter.mp hp4
    exact ⟨by simpa using hp7, by simpa using hp5⟩
  · rw [hrec]
    exact le_trans (le_of_eq (List.length_take _ _)) (min_le_left _ _)
  · rw [hrec]
    exact List.Pairwise.sublist (List.take_sublist _ _)
      (List.sorted_insertionSort rec_order _)
  · intro d
    have hsub := List.Sublist.filter (fun p => p.difficulty == d)
      (List.take_sublist limit ((rec_candidates cfg pr).insertionSort rec_order))
    rw [filter_diff_insertionSort] at hsub
    rw [hrec]
    exact hsub
  · intro h
    have hc : rec_candidates cfg pr = [] := by
      unfold rec_candidates
      apply List.filter_eq_nil_iff.mpr
      intro p hp
      obtain ⟨hp1, hp2⟩ := List.mem_filter.mp hp
      rcases h p hp1 with hs | hi
      · exact absurd hs (by simpa using hp2)
      · simpa using hi
    rw [hrec, hc]
    simp

/-- Witness for C5: no recommendation when the only problem is Low
    importance. -/
theorem get_recommended_problems_witness :
    get_recommended_problems cfgLow default_progress 5 = [] :=
  (get_recommended_problems_spec cfgLow default_progress 5).2.2.2.2 (by decide)

/-- Unmarking a problem that is not solved is a complete no-op. -/
lemma mark_unsolved_of_not_mem (cfg : Config) {problem_id : Nat} (now : Nat)
    {pr : Progress} (h : problem_id ∉ pr.solved_problems) :
    mark_unsolved cfg problem_id now pr = pr := by
  simp [mark_unsolved, h]

/-- Counting after appending a single element. -/
lemma countP_append_singleton (f : Nat → Bool) (l : List Nat) (a : Nat) :
    (l ++ [a]).countP f = l.countP f + if f a then 1 else 0 := by
  simp [List.countP_append, List.countP_cons]

/-- Marking a problem that the catalog knows preserves the cached-stats
    invariant. -/
lemma stats_consistent_mark_solved (cfg : Config) (problem_id : Nat) (t : Int)
    (now : Nat) (pr : Progress)
    (hsome : (get_problem_by_id cfg problem_id).isSome)
    (h : stats_consistent cfg pr) :
    stats_consistent cfg (mark_solved cfg problem_id t now pr) := by
  by_cases hmem : problem_id ∈ pr.solved_problems
  · rw [mark_solved_of_mem cfg t now hmem]
    exact h
  · obtain ⟨p, hp⟩ := Option.isSome_iff_exists.mp hsome
    obtain ⟨hd, ht⟩ := h
    have hstate : mark_solved cfg problem_id t now pr =
        { pr with
          solved_problems := pr.solved_problems ++ [problem_id]
          difficulty_stats := pr.difficulty_stats.add p.difficulty 1
          topic_stats :=
            dictSet pr.topic_stats p.topic
              (dictGetD pr.topic_stats p.topic 0 + 1)
          solve_history :=
            pr.solve_history ++
              [({ problem_id := problem_id, timestamp := now,
                  time_spent := t } : SolveEntry)]
          total_time_spent := pr.total_time_spent + t
          last_updated := some now } := by
      simp [mark_solved, hmem, hp, save_progress]
    rw [hstate]
    constructor
    · intro d
      show (pr.difficulty_stats.add p.difficulty 1).get d
        = ((pr.solved_problems ++ [problem_id]).countP
            (difficulty_matches cfg d) : Int)
      rw [DiffStats.get_add, hd d, countP_append_singleton]
      have hfd : difficulty_matches cfg d problem_id = (p.difficulty == d) := by
        simp [difficulty_matches, hp]
      rw [hfd]
      by_cases hdd : d = p.difficulty
      · subst hdd
        simp
      · have hb : (p.difficulty == d) = false :=
          beq_eq_false_iff_ne.mpr (fun hh => hdd hh.symm)
        simp [hdd, hb]
    · intro t2
      show dictGetD (dictSet pr.topic_stats p.topic
            (dictGetD pr.topic_stats p.topic 0 + 1)) t2 0
        = ((pr.solved_problems ++ [problem_id]).countP
            (topic_matches cfg t2) : Int)
      rw [dictGetD_dictSet, countP_append_singleton]
      have hft : topic_matches cfg t2 problem_id = (p.topic == t2) := by
        simp [topic_matches, hp]
      rw [hft]
      by_cases htt : t2 = p.topic
      · subst htt
        rw [if_pos rfl, ht p.topic]
        simp
      · have hb : (p.topic == t2) = false :=
          beq_eq_false_iff_ne.mpr (fun hh => htt hh.symm)
        rw [if_neg htt, ht t2]
        simp [hb]

/-- Unmarking a problem that the catalog knows preserves the cached-stats
    invariant; the topic floor never bites because the invariant makes the
    decremented entry at least one. -/
lemma stats_consistent_mark_unsolved (cfg : Config) (problem_id now : Nat)
    (pr : Progress)
    (hsome : (get_problem_by_id cfg problem_id).isSome)
    (h : stats_consistent cfg pr) :
    stats_consistent cfg (mark_unsolved cfg problem_id now pr) := by
  by_cases hmem : problem_id ∈ pr.solved_problems
  · obtain ⟨p, hp⟩ := Option.isSome_iff_exists.mp hsome
    obtain ⟨hd, ht⟩ := h
    have hperm : pr.solved_problems.Perm
        (problem_id :: pr.solved_problems.erase problem_id) :=
      List.perm_cons_erase hmem
    have hcount : ∀ f : Nat → Bool, pr.solved_problems.countP f
        = (pr.solved_problems.erase problem_id).countP f
            + if f problem_id then 1 else 0 := by
      intro f
      rw [List.Perm.countP_eq f hperm, List.countP_cons]
    have hstate : mark_unsolved cfg problem_id now pr =
        { pr with
          solved_problems := pr.solved_problems.erase problem_id
          difficulty_stats := pr.difficulty_stats.add p.difficulty (-1)
          topic_stats :=
            dictSet pr.topic_stats p.topic
              (max 0 (dictGetD pr.topic_stats p.topic 0 - 1))
          last_updated := some now } := by
      simp [mark_unsolved, hmem, hp, save_progress]
    rw [hstate]
    constructor
    · intro d
      show (pr.difficulty_stats.add p.difficulty (-1)).get d
        = ((pr.solved_problems.erase problem_id).countP
            (difficulty_matches cfg d) : Int)
      rw [DiffStats.get_add, hd d, hcount (difficulty_matches cfg d)]
      have hfd : difficulty_matches cfg d problem_id = (p.difficulty == d) := by
        simp [difficulty_matches, hp]
      rw [hfd]
      by_cases hdd : d = p.difficulty
      · subst hdd
        push_cast
        simp
      · have hb : (p.difficulty == d) = false :=
          beq_eq_false_iff_ne.mpr (fun hh => hdd hh.symm)
        simp [hdd, hb]
    · intro t2
      show dictGetD (dictSet pr.topic_stats p.topic
            (max 0 (dictGetD pr.topic_stats p.topic 0 - 1))) t2 0
        = ((pr.solved_problems.erase problem_id).countP
            (topic_matches cfg t2) : Int)
      rw [dictGetD_dictSet]
      have hft : topic_matches cfg t2 problem_id = (p.topic == t2) := by
        simp [topic_matches, hp]
      by_cases htt : t2 = p.topic
      · subst htt
        rw [if_pos rfl, ht p.topic, hcount (topic_matches cfg p.topic)]
        rw [hft, beq_self_eq_true]
        push_cast
        have hmax : ((pr.solved_problems.erase problem_id).countP
            (topic_matches cfg p.topic) : Int) + 1 - 1
            = ((pr.solved_problems.erase problem_id).countP
                (topic_matches cfg p.topic) : Int) := by ring
        rw [if_pos rfl, hmax]
        exact max_eq_right (Int.natCast_nonneg _)
      · have hb : (p.topic == t2) = false :=
          beq_eq_false_iff_ne.mpr (fun hh => htt hh.symm)
        rw [if_neg htt, ht t2, hcount (topic_matches cfg t2), hft, hb]
        simp
  · rw [mark_unsolved_of_not_mem cfg now hmem]
    exact h

/-- The cached-stats invariant is preserved by any sequence of operations
    on catalog-known ids. -/
lemma stats_consistent_apply_ops (cfg : Config) (ops : List Op) :
    ∀ pr : Progress, stats_consistent cfg pr →
      (∀ op ∈ ops, (get_problem_by_id cfg op.pid).isSome) →
      stats_consistent cfg (apply_ops cfg pr ops) := by
  induction ops with
  | nil =>
    intro pr h _
    exact h
  | cons op rest ih =>
    intro pr h hall
    have h1 : stats_consistent cfg (apply_op cfg pr op) := by
      cases op with
      | solve problem_id t now =>
        exact stats_consistent_mark_solved cfg problem_id t now pr
          (hall _ (List.mem_cons_self _ _)) h
      | unsolve problem_id now =>
        exact stats_consistent_mark_unsolved cfg problem_id now pr
          (hall _ (List.mem_cons_self _ _)) h
    exact ih (apply_op cfg pr op) h1
      (fun op2 hm => hall op2 (List.mem_cons_of_mem _ hm))

/-- The default-empty progress record satisfies the invariant. -/
lemma stats_consistent_default (cfg : Config) :
    stats_consistent cfg default_progress := by
  constructor
  · intro d
    cases d <;> rfl
  · intro t
    rfl

/-- C1: after any sequence of markSolved/markUnsolved operations on ids
    present in the catalog, starting from the default-empty record, each
    cached difficulty stat equals the number of solved ids of that catalog
    difficulty, and each cached topic stat equals the number of solved ids
    of that catalog topic. -/
theorem apply_ops_stats_consistent (cfg : Config) (ops : List Op)
    (h : ∀ op ∈ ops, (get_problem_by_id cfg op.pid).isSome) :
    stats_consistent cfg (apply_ops cfg default_progress ops) :=
  stats_consistent_apply_ops cfg ops default_progress
    (stats_consistent_default cfg) h

/-- Witness for C1: solve 1, solve 2, unsolve 1 on the three-problem
    catalog leaves consistent stats, with problem 2 (Hard, Graph) solved. -/
theorem apply_ops_stats_consistent_witness :
    stats_consistent cfgW (apply_ops cfgW default_progress opsW)
    ∧ (apply_ops cfgW default_progress opsW).solved_problems = [2]
    ∧ (apply_ops cfgW default_progress opsW).difficulty_stats.get
        Difficulty.Hard = 1 :=
  ⟨apply_ops_stats_consistent cfgW opsW (by decide), by decide, by decide⟩

/-- Unmarking never touches the solve history. -/
lemma solve_history_mark_unsolved (cfg : Config) (problem_id now : Nat)
    (pr : Progress) :
    (mark_unsolved cfg problem_id now pr).solve_history = pr.solve_history := by
  by_cases h : problem_id ∈ pr.solved_problems
  · cases hg : get_problem_by_id cfg problem_id <;>
      simp [mark_unsolved, h, hg, save_progress]
  · simp [mark_unsolved, h]

/-- Unmarking never touches the time total. -/
lemma total_time_mark_unsolved (cfg : Config) (problem_id now : Nat)
    (pr : Progress) :
    (mark_unsolved cfg problem_id now pr).total_time_spent
      = pr.total_time_spent := by
  by_cases h : problem_id ∈ pr.solved_problems
  · cases hg : get_problem_by_id cfg problem_id <;>
      simp [mark_unsolved, h, hg, save_progress]
  · simp [mark_unsolved, h]

/-- Marking never shortens the solve history. -/
lemma solve_history_length_mark_solved (cfg : Config) (problem_id : Nat)
    (t : Int) (now : Nat) (pr : Progress) :
    pr.solve_history.length
      ≤ (mark_solved cfg problem_id t now pr).solve_history.length := by
  by_cases h : problem_id ∈ pr.solved_problems
  · rw [mark_solved_of_mem cfg t now h]
  · cases hg : get_problem_by_id cfg problem_id <;>
      simp [mark_solved, h, hg, save_progress]

/-- The solve history length is monotone along any operation sequence. -/
lemma solve_history_length_apply_ops (cfg : Config) (ops : List Op) :
    ∀ pr : Progress,
      pr.solve_history.length ≤ (apply_ops cfg pr ops).solve_history.length := by
  induction ops with
  | nil =>
    intro pr
    exact le_refl _
  | cons op rest ih =>
    intro pr
    refine le_trans ?_ (ih (apply_op cfg pr op))
    cases op with
    | solve problem_id t now =>
      exact solve_history_length_mark_solved cfg problem_id t now pr
    | unsolve problem_id now =>
      exact le_of_eq
        (congrArg List.length
          (solve_history_mark_unsolved cfg problem_id now pr).symm)

/-- The solved list after marking a not-yet-solved id. -/
lemma solved_mark_solved_of_not_mem (cfg : Config) {problem_id : Nat}
    (t : Int) (now : Nat) {pr : Progress}
    (hmem : problem_id ∉ pr.solved_problems) :
    (mark_solved cfg problem_id t now pr).solved_problems
      = pr.solved_problems ++ [problem_id] := by
  cases hg : get_problem_by_id cfg problem_id <;>
    simp [mark_solved, hmem, hg, save_progress]

/-- The time total after marking a not-yet-solved id. -/
lemma total_time_mark_solved_of_not_mem (cfg : Config) {problem_id : Nat}
    (t : Int) (now : Nat) {pr : Progress}
    (hmem : problem_id ∉ pr.solved_problems) :
    (mark_solved cfg problem_id t now pr).total_time_spent
      = pr.total_time_spent + t := by
  cases hg : get_problem_by_id cfg problem_id <;>
    simp [mark_solved, hmem, hg, save_progress]

/-- The solved list after unmarking a solved id. -/
lemma solved_mark_unsolved_of_mem (cfg : Config) {problem_id : Nat}
    (now : Nat) {pr : Progress} (hmem : problem_id ∈ pr.solved_problems) :
    (mark_unsolved cfg problem_id now pr).solved_problems
      = pr.solved_problems.erase problem_id := by
  cases hg : get_problem_by_id cfg problem_id <;>
    simp [mark_unsolved, hmem, hg, save_progress]

/-- C7 counterexample: when the id is already solved, markSolved is a
    no-op and the following markUnsolved removes it, so the pair does NOT
    restore the prior solved-set membership. -/
theorem mark_pair_counterexample :
    1 ∈ prS1.solved_problems
    ∧ 1 ∉ (mark_unsolved cfgW 1 1
        (mark_solved cfgW 1 5 0 prS1)).solved_problems :=
  ⟨by decide, by decide⟩

/-- C7 amended: for an id NOT yet solved, markSolved then markUnsolved
    restores its (unsolved) membership, leaves totalTimeSpent increased by
    the time spent, and, when the id is in the catalog, leaves the history
    one entry longer (neither is restored); the history length never
    decreases along any operation sequence and strictly increases on a
    markSolved of a not-yet-solved catalog id. -/
theorem mark_pair_spec (cfg : Config) (problem_id : Nat) (t : Int)
    (now now2 : Nat) (pr : Progress) (ops : List Op) :
    (problem_id ∉ pr.solved_problems →
      problem_id ∉ (mark_unsolved cfg problem_id now2
          (mark_solved cfg problem_id t now pr)).solved_problems
      ∧ (mark_unsolved cfg problem_id now2
          (mark_solved cfg problem_id t now pr)).total_time_spent
          = pr.total_time_spent + t
      ∧ (∀ p : Problem, get_problem_by_id cfg problem_id = some p →
          (mark_unsolved cfg problem_id now2
              (mark_solved cfg problem_id t now pr)).solve_history.length
            = pr.solve_history.length + 1
          ∧ (mark_solved cfg problem_id t now pr).solve_history.length
            = pr.solve_history.length + 1))
    ∧ pr.solve_history.length ≤ (apply_ops cfg pr ops).solve_history.length := by
  constructor
  · intro hmem
    have hmem1 : problem_id ∈ (mark_solved cfg problem_id t now pr).solved_problems :=
      mem_solved_mark_solved cfg problem_id t now pr
    have hsolved : (mark_unsolved cfg problem_id now2
        (mark_solved cfg problem_id t now pr)).solved_problems
        = pr.solved_problems := by
      rw [solved_mark_unsolved_of_mem cfg now2 hmem1,
        solved_mark_solved_of_not_mem cfg t now hmem,
        List.erase_append_right _ hmem, List.erase_cons_head]
      simp
    refine ⟨?_, ?_, ?_⟩
    · rw [hsolved]
      exact hmem
    · rw [total_time_mark_unsolved, total_time_mark_solved_of_not_mem cfg t now hmem]
    · intro p hp
      have hhist : (mark_solved cfg problem_id t now pr).solve_history
          = pr.solve_history ++
            [({ problem_id := problem_id, timestamp := now,
                time_spent := t } : SolveEntry)] := by
        simp [mark_solved, hmem, hp, save_progress]
      constructor
      · rw [solve_history_mark_unsolved, hhist]
        simp
      · rw [hhist]
        simp
  · exact solve_history_length_apply_ops cfg ops pr

/-- Witness for the amended C7 at problem 1 on the empty record. -/
theorem mark_pair_witness :
    1 ∉ default_progress.solved_problems
    ∧ 1 ∉ (mark_unsolved cfgW 1 8
        (mark_solved cfgW 1 5 7 default_progress)).solved_problems
    ∧ (mark_unsolved cfgW 1 8
        (mark_solved cfgW 1 5 7 default_progress)).total_time_spent
        = default_progress.total_time_spent + 5
    ∧ (mark_unsolved cfgW 1 8
        (mark_solved cfgW 1 5 7 default_progress)).solve_history.length
        = default_progress.solve_history.length + 1 :=
  ⟨by decide,
   ((mark_pair_spec cfgW 1 5 7 8 default_progress []).1 (by decide)).1,
   ((mark_pair_spec cfgW 1 5 7 8 default_progress []).1 (by decide)).2.1,
   (((mark_pair_spec cfgW 1 5 7 8 default_progress []).1 (by decide)).2.2
     prob1 rfl).1⟩

end DsaHelper
